import Mathlib

/-!
Shallow embedding of the schema-introspection layer of two MCP database
adapters: a PostgreSQL backend (`postgresql-mcp/src/postgresql_mcp/db.py` and
`__main__.py`) and a ScyllaDB backend (`scylladb-mcp/src/scylladb_mcp/db.py`).

Pure logic (identifier validation, row normalization, sorting, exclusion
filters) is translated directly from the Python source.  The network drivers
(`psycopg2`, `cassandra.cluster`) and the database servers are modelled as
oracles carried by a `World` value, and side effects (connection attempts,
query executions, log calls) are recorded in an explicit event trace.
Python's stable `list.sort` / `sorted` is modelled by `List.insertionSort`,
which is a stable sort; for a total preorder every stable sort produces the
same output, so this agrees with CPython's Timsort exactly.
-/

/-- ASCII character class of the validator pattern `[a-zA-Z0-9_]`:
lower-case letters, upper-case letters, digits, underscore. -/
def isWordChar (c : Char) : Bool :=
  decide (('a' ≤ c ∧ c ≤ 'z') ∨ ('A' ≤ c ∧ c ≤ 'Z') ∨ ('0' ≤ c ∧ c ≤ '9') ∨ c = '_')

/-- Embeds Python `re.match(r"^[a-zA-Z0-9_]+$", s)` as a predicate on the
character list of `s`.  `re.match` anchors at the start of the string, and
Python's `$` (without `re.MULTILINE`) matches at the end of the string or
just before a single newline at the end of the string, so the pattern accepts
exactly a non-empty run of word characters optionally followed by one
trailing newline. -/
def reMatchesNamePat (cs : List Char) : Bool :=
  let core := if cs.getLast? = some '\n' then cs.dropLast else cs
  !core.isEmpty && core.all isWordChar

namespace PG

/-- Embeds `DatabaseManager.validate_name` of `postgresql_mcp/db.py`:
`if not re.match(r"^[a-zA-Z0-9_]+$", name): raise ValueError(f"Invalid {type_desc}: {name}")`.
The Python default `type_desc="name"` is never used (all call sites pass the
label), so the label is an explicit argument here.  The error value is the
`ValueError` message. -/
def validate_name (name type_desc : String) : Except String Unit :=
  if reMatchesNamePat name.toList then .ok ()
  else .error ("Invalid " ++ type_desc ++ ": " ++ name)

end PG

namespace Scy

/-- Embeds `DatabaseManager.validate_name` of `scylladb_mcp/db.py`, whose body
is character-for-character the same check as the PostgreSQL one. -/
def validate_name (name type_desc : String) : Except String Unit :=
  if reMatchesNamePat name.toList then .ok ()
  else .error ("Invalid " ++ type_desc ++ ": " ++ name)

end Scy

/-- Spec-side characterization (for the amended claim C1) of the set of
strings the validator accepts: a non-empty string of characters from
`[A-Za-z0-9_]`, or such a string followed by one trailing newline. -/
def specAcceptsName (s : String) : Prop :=
  (s.toList ≠ [] ∧ ∀ c ∈ s.toList, isWordChar c = true) ∨
  (∃ w, s.toList = w ++ ['\n'] ∧ w ≠ [] ∧ ∀ c ∈ w, isWordChar c = true)

theorem reMatchesNamePat_iff (cs : List Char) :
    reMatchesNamePat cs = true ↔
      ((cs ≠ [] ∧ ∀ c ∈ cs, isWordChar c = true) ∨
       (∃ w, cs = w ++ ['\n'] ∧ w ≠ [] ∧ ∀ c ∈ w, isWordChar c = true)) := by
  rcases List.eq_nil_or_concat cs with h | ⟨L, b, h⟩
  · subst h
    simp [reMatchesNamePat]
  · rw [List.concat_eq_append] at h
    subst h
    by_cases hb : b = '\n'
    · subst hb
      have hcond : (L ++ ['\n']).getLast? = some '\n' := by
        simp [List.getLast?_concat]
      have hdl : (L ++ ['\n']).dropLast = L := by
        simp
      constructor
      · intro hm
        unfold reMatchesNamePat at hm
        rw [if_pos hcond, hdl] at hm
        simp only [Bool.and_eq_true, Bool.not_eq_true', List.isEmpty_eq_false,
          List.all_eq_true] at hm
        exact Or.inr ⟨L, rfl, hm.1, hm.2⟩
      · intro hm
        rcases hm with ⟨_, hall⟩ | ⟨w, hw, hne, hall⟩
        · exfalso
          have : isWordChar '\n' = true := hall '\n' (by simp)
          simp [isWordChar] at this
        · have hwL : w = L := ((List.append_inj' hw rfl).1).symm
          subst hwL
          unfold reMatchesNamePat
          rw [if_pos hcond, hdl]
          simp only [Bool.and_eq_true, Bool.not_eq_true', List.isEmpty_eq_false,
            List.all_eq_true]
          exact ⟨hne, hall⟩
    · have hcond : ¬ ((L ++ [b]).getLast? = some '\n') := by
        simp [List.getLast?_concat, hb]
      have hnoc : ¬ ∃ w, L ++ [b] = w ++ ['\n'] ∧ w ≠ [] ∧ ∀ c ∈ w, isWordChar c = true := by
        rintro ⟨w, hw, -, -⟩
        have h2 := (List.append_inj' hw rfl).2
        simp only [List.cons.injEq, and_true] at h2
        exact hb h2
      unfold reMatchesNamePat
      rw [if_neg hcond]
      simp only [Bool.and_eq_true, Bool.not_eq_true', List.isEmpty_eq_false,
        List.all_eq_true]
      constructor
      · intro hm
        exact Or.inl hm
      · intro hm
        rcases hm with hm | hm
        · exact hm
        · exact absurd hm hnoc

/-- C1 (corrected): the string "abc\n" contains a character (the trailing
newline) outside the class `[A-Za-z0-9_]`, yet `validate_name` of both
backends accepts it without error, because Python's `$` anchor also matches
just before a single newline at the end of the string.  This refutes the
claim that every string containing a character outside the class is
rejected. -/
theorem validate_name_newline_counterexample :
    PG.validate_name "abc\n" "schema name" = .ok () ∧
    Scy.validate_name "abc\n" "keyspace name" = .ok () ∧
    '\n' ∈ "abc\n".toList ∧ isWordChar '\n' = false :=
  ⟨rfl, rfl, by decide, by decide⟩

/-- C1 (amended): the identifier validator of either backend accepts exactly
the non-empty strings of characters from `[A-Za-z0-9_]` optionally followed
by one trailing newline (a consequence of Python's `$` semantics), and on
every other string it fails with the message `"Invalid {kind}: {value}"`,
which contains the word "Invalid", the supplied kind label, and the
offending value. -/
theorem validate_name_characterization (name kind : String) :
    (PG.validate_name name kind = .ok () ↔ specAcceptsName name) ∧
    Scy.validate_name name kind = PG.validate_name name kind ∧
    (PG.validate_name name kind = .ok () ∨
      PG.validate_name name kind = .error ("Invalid " ++ kind ++ ": " ++ name)) ∧
    "Invalid".toList <:+: ("Invalid " ++ kind ++ ": " ++ name).toList ∧
    kind.toList <:+: ("Invalid " ++ kind ++ ": " ++ name).toList ∧
    name.toList <:+: ("Invalid " ++ kind ++ ": " ++ name).toList := by
  refine ⟨?_, rfl, ?_, ?_, ?_, ?_⟩
  · unfold PG.validate_name
    by_cases h : reMatchesNamePat name.toList
    · rw [if_pos h]
      simpa [specAcceptsName] using (reMatchesNamePat_iff name.toList).mp h
    · rw [if_neg h]
      constructor
      · intro hc
        exact absurd hc (by simp)
      · intro hc
        exact absurd ((reMatchesNamePat_iff name.toList).mpr
          (by simpa [specAcceptsName] using hc)) h
  · unfold PG.validate_name
    by_cases h : reMatchesNamePat name.toList
    · exact Or.inl (by rw [if_pos h])
    · exact Or.inr (by rw [if_neg h])
  · exact ⟨[], (" " ++ kind ++ ": " ++ name).toList, by
      simp [String.toList, String.data_append]⟩
  · exact ⟨"Invalid ".toList, (": " ++ name).toList, by
      simp [String.toList, String.data_append]⟩
  · exact ⟨("Invalid " ++ kind ++ ": ").toList, [], by
      simp [String.toList, String.data_append]⟩

/-- Error taxonomy of the spec (section 7), carrying the Python exception
messages.  `invalidIdentifier` is the `ValueError` raised by `validate_name`;
`missingConfiguration` the `ValueError` raised by `get_db`; `connectionFailed`
a driver error raised while establishing a session; `backendQueryFailed` a
driver error raised by query execution and re-raised by the operation. -/
inductive DbError where
  | invalidIdentifier (msg : String)
  | missingConfiguration (msg : String)
  | connectionFailed (msg : String)
  | backendQueryFailed (msg : String)
deriving Repr, DecidableEq

/-- Observable side effects of an operation, in program order.  `connectCall`
marks an actual driver connection attempt (`psycopg2.connect` or
`Cluster(...).connect()`), `executeQuery` a query execution with its
parameters, and the log constructors the `logger.error` / `logger.info`
calls. -/
inductive Event where
  | connectCall
  | executeQuery (queryId : String) (params : List String)
  | logError (msg : String)
  | logInfo (msg : String)
deriving Repr, DecidableEq

/-- Python runtime error that the embeddings of `close` could raise only by
dereferencing `None`; the guards in the source prevent it, which is the
content of claim C5. -/
inductive PyRuntimeError where
  | attributeErrorNone (attr : String)
deriving Repr, DecidableEq

namespace PG

/-- State of a `psycopg2` connection object as far as this layer observes it:
whether it has been closed, and whether `set_session(readonly=True)` has been
applied to it. -/
structure Conn where
  closed : Bool
  readonly : Bool
deriving Repr, DecidableEq

/-- Connection configuration dictionary built by `get_db_config` in
`postgresql_mcp/__main__.py`. -/
structure Config where
  host : String
  port : String
  user : String
  password : String
  database : String
deriving Repr, DecidableEq

/-- Instance state of the `DatabaseManager` class of `postgresql_mcp/db.py`:
the stored configuration and `self.conn` (`None` until `connect` runs). -/
structure DatabaseManager where
  db_config : Config
  conn : Option Conn
deriving Repr, DecidableEq

/-- Row shape returned by the `describe_table` catalog query through the
`RealDictCursor`: column name, declared type, nullability flag, and default
expression (NULL when absent). -/
structure ColumnRow where
  column_name : String
  data_type : String
  is_nullable : String
  column_default : Option String
deriving Repr, DecidableEq

/-- Row shape of the `get_table_indexes` query over `pg_indexes`. -/
structure IndexRow where
  indexname : String
  indexdef : String
deriving Repr, DecidableEq

/-- Row shape of the `get_table_constraints` query over `pg_constraint`. -/
structure ConstraintRow where
  constraint_name : String
  constraint_def : String
deriving Repr, DecidableEq

/-- Oracle for the `psycopg2` driver and the PostgreSQL server.
`connectRes` is the outcome of `psycopg2.connect(**db_config)`; `execErr q`
injects a `psycopg2.Error` with the given message into the execution of the
query named `q` (`none` means the query succeeds); `schemata` holds the
schema names of `information_schema.schemata`, from which the `list_schemas`
query is interpreted; the remaining fields are the row sets the server
returns for the parameterized catalog queries. -/
structure World where
  connectRes : Except String Unit
  execErr : String → Option String
  schemata : List String
  tablesRows : String → List String
  columnsRows : String → String → List ColumnRow
  indexesRows : String → String → List IndexRow
  constraintsRows : String → String → List ConstraintRow

/-- Result of running one manager method: the Python return-or-raise outcome,
the manager state afterwards, and the trace of observable side effects in
order. -/
structure Step (α : Type) where
  res : Except DbError α
  mgr : DatabaseManager
  trace : List Event
deriving Repr

/-- Embeds `DatabaseManager.connect` (db.py lines 15-24).  The guard
`not self.conn or self.conn.closed` decides whether a new driver connection
is opened (connection objects are always truthy, so `not self.conn` tests
for `None`, and short-circuiting makes the `.closed` access safe).  On the
connect branch `psycopg2.connect` runs (oracle `w.connectRes`); on success
the fresh open connection is immediately marked read-only by
`self.conn.set_session(readonly=True)` (which cannot fail on a fresh idle
connection); on failure the `psycopg2.Error` is logged and re-raised and
`self.conn` keeps its previous value. -/
def connect (w : World) (m : DatabaseManager) : Step Unit :=
  let stale : Bool :=
    match m.conn with
    | none => true
    | some c => c.closed
  if stale then
    match w.connectRes with
    | .error e =>
        { res := .error (.connectionFailed e), mgr := m,
          trace := [.connectCall, .logError ("Error connecting to database: " ++ e)] }
    | .ok () =>
        let fresh : Conn := { closed := false, readonly := false }
        let fresh2 : Conn := { fresh with readonly := true }
        { res := .ok (), mgr := { m with conn := some fresh2 }, trace := [.connectCall] }
  else { res := .ok (), mgr := m, trace := [] }

/-- Attribute access `x.closed` where `x` may be `None`. -/
def connClosedAttr : Option Conn → Except PyRuntimeError Bool
  | none => .error (.attributeErrorNone "closed")
  | some c => .ok c.closed

/-- Method call `x.close()` where `x` may be `None`. -/
def connCloseMethod : Option Conn → Except PyRuntimeError Conn
  | none => .error (.attributeErrorNone "close")
  | some c => .ok { c with closed := true }

/-- Embeds `DatabaseManager.close` (db.py lines 26-29):
`if self.conn and not self.conn.closed: self.conn.close()`.  The truthiness
test on `self.conn` short-circuits the conjunction, which is what makes the
attribute accesses safe on a never-connected manager. -/
def close (m : DatabaseManager) : Except PyRuntimeError DatabaseManager :=
  if m.conn.isSome then
    match connClosedAttr m.conn with
    | .error e => .error e
    | .ok cl =>
      if !cl then
        match connCloseMethod m.conn with
        | .error e => .error e
        | .ok c2 => .ok { m with conn := some c2 }
      else .ok m
  else .ok m

/-- Embeds the WHERE clause of the `list_schemas` catalog query:
`schema_name NOT IN (information_schema, pg_catalog) AND schema_name NOT
LIKE pg_toast% AND schema_name NOT LIKE pg_temp%` (the doubled percent signs
in the Python source are LIKE wildcards; `LIKE x%` is a prefix test). -/
def schemaExcluded (s : String) : Bool :=
  s == "information_schema" || s == "pg_catalog" ||
  s.startsWith "pg_toast" || s.startsWith "pg_temp"

/-- Server semantics of the `list_schemas` catalog query: the schema names
passing the WHERE filter, in `ORDER BY schema_name` order, modelled by a
sort under the string order. -/
def schemataQueryRows (schemata : List String) : List String :=
  List.insertionSort (· ≤ ·) (schemata.filter (fun s => !schemaExcluded s))

/-- Embeds `DatabaseManager.list_schemas` (db.py lines 31-48): connect, run
the fixed catalog query, return its rows; a `psycopg2.Error` during
execution is logged and re-raised. -/
def list_schemas (w : World) (m : DatabaseManager) : Step (List String) :=
  let c := connect w m
  match c.res with
  | .error e => { res := .error e, mgr := c.mgr, trace := c.trace }
  | .ok () =>
    match w.execErr "list_schemas" with
    | some e =>
        { res := .error (.backendQueryFailed e), mgr := c.mgr,
          trace := c.trace ++ [.executeQuery "list_schemas" [],
            .logError ("Error listing schemas: " ++ e)] }
    | none =>
        { res := .ok (schemataQueryRows w.schemata), mgr := c.mgr,
          trace := c.trace ++ [.executeQuery "list_schemas" []] }

/-- Embeds `DatabaseManager.list_tables` (db.py lines 56-75): validate the
schema name, connect, run the parameterized query, return its rows; a
`psycopg2.Error` during execution is logged and re-raised. -/
def list_tables (w : World) (m : DatabaseManager) (schema : String) :
    Step (List String) :=
  match validate_name schema "schema name" with
  | .error e => { res := .error (.invalidIdentifier e), mgr := m, trace := [] }
  | .ok () =>
    let c := connect w m
    match c.res with
    | .error e => { res := .error e, mgr := c.mgr, trace := c.trace }
    | .ok () =>
      match w.execErr "list_tables" with
      | some e =>
          { res := .error (.backendQueryFailed e), mgr := c.mgr,
            trace := c.trace ++ [.executeQuery "list_tables" [schema],
              .logError ("Error listing tables in schema \x27" ++ schema ++ "\x27: " ++ e)] }
      | none =>
          { res := .ok (w.tablesRows schema), mgr := c.mgr,
            trace := c.trace ++ [.executeQuery "list_tables" [schema]] }

/-- Embeds `DatabaseManager.describe_table` (db.py lines 77-105): validate
the schema name then the table name, connect, run the parameterized query
(ordered by `ordinal_position` server-side), return its rows; a
`psycopg2.Error` during execution is logged and re-raised. -/
def describe_table (w : World) (m : DatabaseManager) (schema table : String) :
    Step (List ColumnRow) :=
  match validate_name schema "schema name" with
  | .error e => { res := .error (.invalidIdentifier e), mgr := m, trace := [] }
  | .ok () =>
  match validate_name table "table name" with
  | .error e => { res := .error (.invalidIdentifier e), mgr := m, trace := [] }
  | .ok () =>
    let c := connect w m
    match c.res with
    | .error e => { res := .error e, mgr := c.mgr, trace := c.trace }
    | .ok () =>
      match w.execErr "describe_table" with
      | some e =>
          { res := .error (.backendQueryFailed e), mgr := c.mgr,
            trace := c.trace ++ [.executeQuery "describe_table" [schema, table],
              .logError ("Error describing table \x27" ++ schema ++ "." ++ table ++ "\x27: " ++ e)] }
      | none =>
          { res := .ok (w.columnsRows schema table), mgr := c.mgr,
            trace := c.trace ++ [.executeQuery "describe_table" [schema, table]] }

/-- Embeds `DatabaseManager.get_table_indexes` (db.py lines 107-130):
validate both names, connect, run the parameterized query over `pg_indexes`
(ordered by `indexname` server-side), return its rows; a `psycopg2.Error`
during execution is logged and re-raised. -/
def get_table_indexes (w : World) (m : DatabaseManager) (schema table : String) :
    Step (List IndexRow) :=
  match validate_name schema "schema name" with
  | .error e => { res := .error (.invalidIdentifier e), mgr := m, trace := [] }
  | .ok () =>
  match validate_name table "table name" with
  | .error e => { res := .error (.invalidIdentifier e), mgr := m, trace := [] }
  | .ok () =>
    let c := connect w m
    match c.res with
    | .error e => { res := .error e, mgr := c.mgr, trace := c.trace }
    | .ok () =>
      match w.execErr "get_table_indexes" with
      | some e =>
          { res := .error (.backendQueryFailed e), mgr := c.mgr,
            trace := c.trace ++ [.executeQuery "get_table_indexes" [schema, table],
              .logError ("Error getting indexes for table \x27" ++ schema ++ "." ++ table ++ "\x27: " ++ e)] }
      | none =>
          { res := .ok (w.indexesRows schema table), mgr := c.mgr,
            trace := c.trace ++ [.executeQuery "get_table_indexes" [schema, table]] }

/-- Embeds `DatabaseManager.get_table_constraints` (db.py lines 132-157):
validate both names, connect, run the parameterized query over
`pg_constraint` (ordered by `conname` server-side), return its rows; a
`psycopg2.Error` during execution is logged and re-raised. -/
def get_table_constraints (w : World) (m : DatabaseManager) (schema table : String) :
    Step (List ConstraintRow) :=
  match validate_name schema "schema name" with
  | .error e => { res := .error (.invalidIdentifier e), mgr := m, trace := [] }
  | .ok () =>
  match validate_name table "table name" with
  | .error e => { res := .error (.invalidIdentifier e), mgr := m, trace := [] }
  | .ok () =>
    let c := connect w m
    match c.res with
    | .error e => { res := .error e, mgr := c.mgr, trace := c.trace }
    | .ok () =>
      match w.execErr "get_table_constraints" with
      | some e =>
          { res := .error (.backendQueryFailed e), mgr := c.mgr,
            trace := c.trace ++ [.executeQuery "get_table_constraints" [schema, table],
              .logError ("Error getting constraints for table \x27" ++ schema ++ "." ++ table ++ "\x27: " ++ e)] }
      | none =>
          { res := .ok (w.constraintsRows schema table), mgr := c.mgr,
            trace := c.trace ++ [.executeQuery "get_table_constraints" [schema, table]] }

/-- Embeds `get_db_config` of `postgresql_mcp/__main__.py`: five environment
variables read through `os.getenv` with defaults.  `env` maps a variable
name to its value, `none` meaning the variable is absent. -/
def get_db_config (env : String → Option String) : Config :=
  { host := (env "POSTGRES_HOST").getD "localhost"
    port := (env "POSTGRES_PORT").getD "5432"
    user := (env "POSTGRES_USER").getD ""
    password := (env "POSTGRES_PASSWORD").getD ""
    database := (env "POSTGRES_DATABASE").getD "" }

/-- Embeds the construction phase of the `get_db` context manager of
`postgresql_mcp/__main__.py`: if user, password, or database is falsy
(absent variables default to the empty string), a `ValueError` is raised
before the `DatabaseManager` is constructed, so no connection attempt can
happen.  On success the manager starts with `self.conn = None`. -/
def get_db (env : String → Option String) : Except DbError DatabaseManager :=
  let cfg := get_db_config env
  if cfg.user == "" || cfg.password == "" || cfg.database == "" then
    .error (.missingConfiguration
      "Database credentials (POSTGRES_USER, POSTGRES_PASSWORD, POSTGRES_DATABASE) are required")
  else .ok { db_config := cfg, conn := none }

/-- Invariant of claim C6: any live (non-closed) connection held by the
manager has been marked read-only at the protocol level. -/
def liveReadonly (m : DatabaseManager) : Prop :=
  ∀ c, m.conn = some c → c.closed = false → c.readonly = true

end PG

namespace Scy

/-- State of a `cassandra.cluster.Session` as far as this layer observes it. -/
structure Session where
  is_shutdown : Bool
deriving Repr, DecidableEq

/-- State of a `cassandra.cluster.Cluster` handle; its `shutdown` method is
idempotent at the driver level. -/
structure Cluster where
  wasShutdown : Bool
deriving Repr, DecidableEq

/-- Connection configuration dictionary of the ScyllaDB backend; entries may
be absent (`dict.get` returns `None`). -/
structure Config where
  host : Option String
  port : Option String
  user : Option String
  password : Option String
deriving Repr, DecidableEq

/-- Instance state of the `DatabaseManager` class of `scylladb_mcp/db.py`:
the stored configuration, `self.cluster`, and `self.session` (both `None`
until `connect` runs). -/
structure DatabaseManager where
  db_config : Config
  cluster : Option Cluster
  session : Option Session
deriving Repr, DecidableEq

/-- Authentication decision inside `connect`: a `PlainTextAuthProvider` is
built only when both `db_config.get("user")` and `db_config.get("password")`
are truthy (present and non-empty). -/
def authEnabled (cfg : Config) : Bool :=
  ((cfg.user.getD "") != "") && ((cfg.password.getD "") != "")

/-- Row shape of the `describe_table` query over `system_schema.columns`;
`position` is `None`-able in the normalized dictionary. -/
structure ColumnRow where
  column_name : String
  ctype : String
  kind : String
  position : Option Int
deriving Repr, DecidableEq

/-- Row shape of the `get_table_indexes` query over `system_schema.indexes`.
`options` models the driver-side options map: `none` stands for a falsy
value (`NULL` or an empty map), `some s` for a non-empty map whose `str()`
rendering is `s`. -/
structure IndexRow where
  index_name : String
  kind : String
  options : Option String
deriving Repr, DecidableEq

/-- Normalized index dictionary produced by `get_table_indexes`:
`options` is `str(row.options) if row.options else ""`. -/
structure IndexOut where
  index_name : String
  kind : String
  options : String
deriving Repr, DecidableEq

/-- Row shape of the `get_materialized_views` query over
`system_schema.views`. -/
structure ViewRow where
  view_name : String
  base_table_name : String
deriving Repr, DecidableEq

/-- Oracle for the `cassandra` driver and the ScyllaDB server.  `connectRes`
is the outcome of `self.cluster.connect()`; `execErr q` injects a driver
exception into the execution of the query named `q`; `keyspaceRows` holds
the keyspace names of `system_schema.keyspaces`, from which the WHERE NOT IN
filter of `list_keyspaces` is interpreted; the remaining fields are the row
sets the server returns for the parameterized queries (in server return
order, before any Python-side sorting). -/
structure World where
  connectRes : Except String Unit
  execErr : String → Option String
  keyspaceRows : List String
  tableRows : String → List String
  columnRows : String → String → List ColumnRow
  indexRows : String → String → List IndexRow
  viewRows : String → List ViewRow

/-- Result of running one manager method: the Python return-or-raise outcome,
the manager state afterwards, and the trace of observable side effects in
order. -/
structure Step (α : Type) where
  res : Except DbError α
  mgr : DatabaseManager
  trace : List Event
deriving Repr

/-- Embeds `DatabaseManager.connect` (db.py lines 16-40).  The guard
`not self.session or self.session.is_shutdown` decides whether a new
connection is opened.  On the connect branch, `Cluster(...)` is constructed
and stored in `self.cluster` first (this allocation does not touch the
network), then `self.cluster.connect()` runs (oracle `w.connectRes`): on
success `self.session` becomes a live session and an info message is
logged; on failure the exception is logged and re-raised, with the fresh
cluster handle already stored and the old session left in place.  There is
no read-only marking (the driver has no session-level read-only mode). -/
def connect (w : World) (m : DatabaseManager) : Step Unit :=
  let stale : Bool :=
    match m.session with
    | none => true
    | some s => s.is_shutdown
  if stale then
    let m1 := { m with cluster := some { wasShutdown := false } }
    match w.connectRes with
    | .error e =>
        { res := .error (.connectionFailed e), mgr := m1,
          trace := [.connectCall, .logError ("Error connecting to ScyllaDB: " ++ e)] }
    | .ok () =>
        { res := .ok (), mgr := { m1 with session := some { is_shutdown := false } },
          trace := [.connectCall, .logInfo "Connected to ScyllaDB cluster"] }
  else { res := .ok (), mgr := m, trace := [] }

/-- Attribute access `x.is_shutdown` where `x` may be `None`. -/
def sessionShutdownAttr : Option Session → Except PyRuntimeError Bool
  | none => .error (.attributeErrorNone "is_shutdown")
  | some s => .ok s.is_shutdown

/-- Method call `x.shutdown()` on a session where `x` may be `None`. -/
def sessionShutdownMethod : Option Session → Except PyRuntimeError Session
  | none => .error (.attributeErrorNone "shutdown")
  | some s => .ok { s with is_shutdown := true }

/-- Method call `x.shutdown()` on a cluster where `x` may be `None`; the
driver allows repeated shutdown calls. -/
def clusterShutdownMethod : Option Cluster → Except PyRuntimeError Cluster
  | none => .error (.attributeErrorNone "shutdown")
  | some c => .ok { c with wasShutdown := true }

/-- Embeds `DatabaseManager.close` (db.py lines 42-47):
`if self.session and not self.session.is_shutdown: self.session.shutdown()`
followed by `if self.cluster: self.cluster.shutdown()`.  The truthiness
guards are what make the method calls safe when nothing was connected. -/
def close (m : DatabaseManager) : Except PyRuntimeError DatabaseManager :=
  let afterSession : Except PyRuntimeError DatabaseManager :=
    if m.session.isSome then
      match sessionShutdownAttr m.session with
      | .error e => .error e
      | .ok sd =>
        if !sd then
          match sessionShutdownMethod m.session with
          | .error e => .error e
          | .ok s2 => .ok { m with session := some s2 }
        else .ok m
    else .ok m
  match afterSession with
  | .error e => .error e
  | .ok m2 =>
    if m2.cluster.isSome then
      match clusterShutdownMethod m2.cluster with
      | .error e => .error e
      | .ok c2 => .ok { m2 with cluster := some c2 }
    else .ok m2

/-- Embeds the WHERE clause of the `list_keyspaces` query:
`keyspace_name NOT IN (system, system_schema, system_auth,
system_distributed, system_traces)`. -/
def keyspaceExcluded (k : String) : Bool :=
  k == "system" || k == "system_schema" || k == "system_auth" ||
  k == "system_distributed" || k == "system_traces"

/-- Embeds `DatabaseManager.list_keyspaces` (db.py lines 49-65): connect,
run the fixed query (no ORDER BY; the WHERE NOT IN filter is interpreted
over the keyspace catalog), then sort the names in Python with `sorted`;
a driver exception during execution is logged and re-raised. -/
def list_keyspaces (w : World) (m : DatabaseManager) : Step (List String) :=
  let c := connect w m
  match c.res with
  | .error e => { res := .error e, mgr := c.mgr, trace := c.trace }
  | .ok () =>
    match w.execErr "list_keyspaces" with
    | some e =>
        { res := .error (.backendQueryFailed e), mgr := c.mgr,
          trace := c.trace ++ [.executeQuery "list_keyspaces" [],
            .logError ("Error listing keyspaces: " ++ e)] }
    | none =>
        { res := .ok (List.insertionSort (· ≤ ·)
            (w.keyspaceRows.filter (fun k => !keyspaceExcluded k))),
          mgr := c.mgr,
          trace := c.trace ++ [.executeQuery "list_keyspaces" []] }

/-- Embeds `DatabaseManager.list_tables` (db.py lines 73-90): validate the
keyspace name, connect, run the parameterized query, sort the table names
in Python with `sorted`; a driver exception during execution is logged and
re-raised. -/
def list_tables (w : World) (m : DatabaseManager) (keyspace : String) :
    Step (List String) :=
  match validate_name keyspace "keyspace name" with
  | .error e => { res := .error (.invalidIdentifier e), mgr := m, trace := [] }
  | .ok () =>
    let c := connect w m
    match c.res with
    | .error e => { res := .error e, mgr := c.mgr, trace := c.trace }
    | .ok () =>
      match w.execErr "list_tables" with
      | some e =>
          { res := .error (.backendQueryFailed e), mgr := c.mgr,
            trace := c.trace ++ [.executeQuery "list_tables" [keyspace],
              .logError ("Error listing tables in keyspace \x27" ++ keyspace ++ "\x27: " ++ e)] }
      | none =>
          { res := .ok (List.insertionSort (· ≤ ·) (w.tableRows keyspace)),
            mgr := c.mgr,
            trace := c.trace ++ [.executeQuery "list_tables" [keyspace]] }

/-- Rank assigned to a column kind by the sort key lambda of
`describe_table`: `0 if kind == "partition_key" else 1 if kind ==
"clustering" else 2 if kind == "static" else 3`.  Every kind outside the
three named ones, including "regular" and unrecognized values, falls
through to 3. -/
def kindRank (k : String) : Nat :=
  if k == "partition_key" then 0
  else if k == "clustering" then 1
  else if k == "static" then 2
  else 3

/-- Position component of the sort key:
`x["position"] if x["position"] is not None else 999`. -/
def posOr999 (p : Option Int) : Int := p.getD 999

/-- Full sort key of a normalized column dictionary. -/
def colKey (c : ColumnRow) : Nat × Int := (kindRank c.kind, posOr999 c.position)

/-- Comparison used to model `columns.sort(key=...)`: Python compares key
tuples lexicographically. -/
def colR (a b : ColumnRow) : Prop :=
  (colKey a).1 < (colKey b).1 ∨
  ((colKey a).1 = (colKey b).1 ∧ (colKey a).2 ≤ (colKey b).2)

instance : DecidableRel colR := fun a b => by
  unfold colR
  infer_instance

instance : IsTotal ColumnRow colR :=
  ⟨by
    intro a b
    unfold colR
    omega⟩

instance : IsTrans ColumnRow colR :=
  ⟨by
    intro a b c hab hbc
    unfold colR at hab hbc ⊢
    omega⟩

/-- Embeds `DatabaseManager.describe_table` (db.py lines 92-139): validate
the keyspace name then the table name, connect, run the parameterized query,
build the normalized column dictionaries, and sort them in place by
(kind rank, position with None replaced by 999); `list.sort` is stable, as
is `List.insertionSort`.  A driver exception during execution is logged and
re-raised. -/
def describe_table (w : World) (m : DatabaseManager) (keyspace table : String) :
    Step (List ColumnRow) :=
  match validate_name keyspace "keyspace name" with
  | .error e => { res := .error (.invalidIdentifier e), mgr := m, trace := [] }
  | .ok () =>
  match validate_name table "table name" with
  | .error e => { res := .error (.invalidIdentifier e), mgr := m, trace := [] }
  | .ok () =>
    let c := connect w m
    match c.res with
    | .error e => { res := .error e, mgr := c.mgr, trace := c.trace }
    | .ok () =>
      match w.execErr "describe_table" with
      | some e =>
          { res := .error (.backendQueryFailed e), mgr := c.mgr,
            trace := c.trace ++ [.executeQuery "describe_table" [keyspace, table],
              .logError ("Error describing table \x27" ++ keyspace ++ "." ++ table ++ "\x27: " ++ e)] }
      | none =>
          { res := .ok (List.insertionSort colR (w.columnRows keyspace table)),
            mgr := c.mgr,
            trace := c.trace ++ [.executeQuery "describe_table" [keyspace, table]] }

/-- Embeds `DatabaseManager.get_table_indexes` (db.py lines 141-174):
validate both names, connect, run the parameterized query, normalize each
row (`options` becomes `str(row.options) if row.options else ""`), in
backend return order (no sorting).  A driver exception during execution is
logged and re-raised. -/
def get_table_indexes (w : World) (m : DatabaseManager) (keyspace table : String) :
    Step (List IndexOut) :=
  match validate_name keyspace "keyspace name" with
  | .error e => { res := .error (.invalidIdentifier e), mgr := m, trace := [] }
  | .ok () =>
  match validate_name table "table name" with
  | .error e => { res := .error (.invalidIdentifier e), mgr := m, trace := [] }
  | .ok () =>
    let c := connect w m
    match c.res with
    | .error e => { res := .error e, mgr := c.mgr, trace := c.trace }
    | .ok () =>
      match w.execErr "get_table_indexes" with
      | some e =>
          { res := .error (.backendQueryFailed e), mgr := c.mgr,
            trace := c.trace ++ [.executeQuery "get_table_indexes" [keyspace, table],
              .logError ("Error getting indexes for table \x27" ++ keyspace ++ "." ++ table ++ "\x27: " ++ e)] }
      | none =>
          { res := .ok ((w.indexRows keyspace table).map (fun r =>
              { index_name := r.index_name, kind := r.kind,
                options := r.options.getD "" })),
            mgr := c.mgr,
            trace := c.trace ++ [.executeQuery "get_table_indexes" [keyspace, table]] }

/-- Comparison used to model `sorted(views, key=lambda x: x["view_name"])`. -/
def viewR (a b : ViewRow) : Prop := a.view_name ≤ b.view_name

instance : DecidableRel viewR := fun a b => by
  unfold viewR
  infer_instance

instance : IsTotal ViewRow viewR :=
  ⟨fun a b => le_total a.view_name b.view_name⟩

instance : IsTrans ViewRow viewR :=
  ⟨fun _ _ _ hab hbc => le_trans hab hbc⟩

/-- Embeds `DatabaseManager.get_materialized_views` (db.py lines 176-201):
validate the keyspace name, connect, run the parameterized query, and
return the view dictionaries sorted by view name.  A driver exception
during execution is logged and re-raised. -/
def get_materialized_views (w : World) (m : DatabaseManager) (keyspace : String) :
    Step (List ViewRow) :=
  match validate_name keyspace "keyspace name" with
  | .error e => { res := .error (.invalidIdentifier e), mgr := m, trace := [] }
  | .ok () =>
    let c := connect w m
    match c.res with
    | .error e => { res := .error e, mgr := c.mgr, trace := c.trace }
    | .ok () =>
      match w.execErr "get_materialized_views" with
      | some e =>
          { res := .error (.backendQueryFailed e), mgr := c.mgr,
            trace := c.trace ++ [.executeQuery "get_materialized_views" [keyspace],
              .logError ("Error getting materialized views in keyspace \x27" ++ keyspace ++ "\x27: " ++ e)] }
      | none =>
          { res := .ok (List.insertionSort viewR (w.viewRows keyspace)),
            mgr := c.mgr,
            trace := c.trace ++ [.executeQuery "get_materialized_views" [keyspace]] }

end Scy

theorem PG.connect_cases_pg (w : PG.World) (m : PG.DatabaseManager) :
    (PG.connect w m = ⟨.ok (), m, []⟩ ∧
      ∃ c, m.conn = some c ∧ c.closed = false) ∨
    (PG.connect w m =
        ⟨.ok (), { m with conn := some { closed := false, readonly := true } },
          [.connectCall]⟩ ∧
      w.connectRes = .ok ()) ∨
    (∃ e, PG.connect w m =
        ⟨.error (.connectionFailed e), m,
          [.connectCall, .logError ("Error connecting to database: " ++ e)]⟩ ∧
      w.connectRes = .error e) := by
  unfold PG.connect
  cases hmc : m.conn with
  | none =>
    cases hw : w.connectRes with
    | error e => exact Or.inr (Or.inr ⟨e, by simp, rfl⟩)
    | ok u =>
      cases u
      exact Or.inr (Or.inl ⟨by simp, rfl⟩)
  | some c0 =>
    cases hcl : c0.closed with
    | false => exact Or.inl ⟨by simp [hcl], c0, rfl, hcl⟩
    | true =>
      cases hw : w.connectRes with
      | error e => exact Or.inr (Or.inr ⟨e, by simp [hcl], rfl⟩)
      | ok u =>
        cases u
        exact Or.inr (Or.inl ⟨by simp [hcl], rfl⟩)

theorem Scy.connect_cases_scy (w : Scy.World) (m : Scy.DatabaseManager) :
    (Scy.connect w m = ⟨.ok (), m, []⟩ ∧
      ∃ s, m.session = some s ∧ s.is_shutdown = false) ∨
    (Scy.connect w m =
        ⟨.ok (),
          { m with cluster := some { wasShutdown := false },
                   session := some { is_shutdown := false } },
          [.connectCall, .logInfo "Connected to ScyllaDB cluster"]⟩ ∧
      w.connectRes = .ok ()) ∨
    (∃ e, Scy.connect w m =
        ⟨.error (.connectionFailed e), { m with cluster := some { wasShutdown := false } },
          [.connectCall, .logError ("Error connecting to ScyllaDB: " ++ e)]⟩ ∧
      w.connectRes = .error e) := by
  unfold Scy.connect
  cases hms : m.session with
  | none =>
    cases hw : w.connectRes with
    | error e => exact Or.inr (Or.inr ⟨e, by simp, rfl⟩)
    | ok u =>
      cases u
      exact Or.inr (Or.inl ⟨by simp, rfl⟩)
  | some s0 =>
    cases hsd : s0.is_shutdown with
    | false => exact Or.inl ⟨by simp [hsd], s0, rfl, hsd⟩
    | true =>
      cases hw : w.connectRes with
      | error e => exact Or.inr (Or.inr ⟨e, by simp [hsd], rfl⟩)
      | ok u =>
        cases u
        exact Or.inr (Or.inl ⟨by simp [hsd], rfl⟩)

/-- C3: on either backend, every operation taking a schema/keyspace and/or
table argument validates the first argument before anything else: when the
first argument is invalid the operation raises the invalid-identifier error
naming that first argument, whatever the second argument (the second is
arbitrary here, so this covers the case where both are invalid), with an
empty event trace, so no connection attempt and no query execution; and
when the first argument is valid and the second invalid, the error names
the second argument, again with an empty trace.  The manager state is
unchanged in all these cases. -/
theorem ops_reject_invalid_names_before_connect
    (w : PG.World) (ws : Scy.World)
    (m : PG.DatabaseManager) (ms : Scy.DatabaseManager)
    (s t : String) (hs : reMatchesNamePat s.toList = false) :
    PG.list_tables w m s =
      ⟨.error (.invalidIdentifier ("Invalid schema name: " ++ s)), m, []⟩ ∧
    PG.describe_table w m s t =
      ⟨.error (.invalidIdentifier ("Invalid schema name: " ++ s)), m, []⟩ ∧
    PG.get_table_indexes w m s t =
      ⟨.error (.invalidIdentifier ("Invalid schema name: " ++ s)), m, []⟩ ∧
    PG.get_table_constraints w m s t =
      ⟨.error (.invalidIdentifier ("Invalid schema name: " ++ s)), m, []⟩ ∧
    Scy.list_tables ws ms s =
      ⟨.error (.invalidIdentifier ("Invalid keyspace name: " ++ s)), ms, []⟩ ∧
    Scy.describe_table ws ms s t =
      ⟨.error (.invalidIdentifier ("Invalid keyspace name: " ++ s)), ms, []⟩ ∧
    Scy.get_table_indexes ws ms s t =
      ⟨.error (.invalidIdentifier ("Invalid keyspace name: " ++ s)), ms, []⟩ ∧
    Scy.get_materialized_views ws ms s =
      ⟨.error (.invalidIdentifier ("Invalid keyspace name: " ++ s)), ms, []⟩ ∧
    (∀ g : String, reMatchesNamePat g.toList = true →
      PG.describe_table w m g s =
        ⟨.error (.invalidIdentifier ("Invalid table name: " ++ s)), m, []⟩ ∧
      PG.get_table_indexes w m g s =
        ⟨.error (.invalidIdentifier ("Invalid table name: " ++ s)), m, []⟩ ∧
      PG.get_table_constraints w m g s =
        ⟨.error (.invalidIdentifier ("Invalid table name: " ++ s)), m, []⟩ ∧
      Scy.describe_table ws ms g s =
        ⟨.error (.invalidIdentifier ("Invalid table name: " ++ s)), ms, []⟩ ∧
      Scy.get_table_indexes ws ms g s =
        ⟨.error (.invalidIdentifier ("Invalid table name: " ++ s)), ms, []⟩) := by
  have hs2 : reMatchesNamePat s.data = false := hs
  refine ⟨?_, ?_, ?_, ?_, ?_, ?_, ?_, ?_, ?_⟩
  · simp [PG.list_tables, PG.validate_name, hs2]
  · simp [PG.describe_table, PG.validate_name, hs2]
  · simp [PG.get_table_indexes, PG.validate_name, hs2]
  · simp [PG.get_table_constraints, PG.validate_name, hs2]
  · simp [Scy.list_tables, Scy.validate_name, hs2]
  · simp [Scy.describe_table, Scy.validate_name, hs2]
  · simp [Scy.get_table_indexes, Scy.validate_name, hs2]
  · simp [Scy.get_materialized_views, Scy.validate_name, hs2]
  · intro g hg
    have hg2 : reMatchesNamePat g.data = true := hg
    refine ⟨?_, ?_, ?_, ?_, ?_⟩ <;>
      simp [PG.describe_table, PG.get_table_indexes, PG.get_table_constraints,
        Scy.describe_table, Scy.get_table_indexes,
        PG.validate_name, Scy.validate_name, hs2, hg2]

/-- Concrete PostgreSQL configuration used by witnesses. -/
def pgCfg0 : PG.Config :=
  { host := "localhost", port := "5432", user := "u", password := "p", database := "d" }

/-- Concrete PostgreSQL oracle used by witnesses: connection succeeds and
every query succeeds. -/
def pgWorld0 : PG.World :=
  { connectRes := .ok (), execErr := fun _ => none,
    schemata := ["public", "pg_catalog", "audit"],
    tablesRows := fun _ => [], columnsRows := fun _ _ => [],
    indexesRows := fun _ _ => [], constraintsRows := fun _ _ => [] }

/-- Fresh PostgreSQL manager used by witnesses. -/
def pgMgr0 : PG.DatabaseManager := { db_config := pgCfg0, conn := none }

/-- Concrete ScyllaDB configuration used by witnesses. -/
def scyCfg0 : Scy.Config :=
  { host := none, port := none, user := none, password := none }

/-- Concrete ScyllaDB oracle used by witnesses: connection succeeds and
every query succeeds. -/
def scyWorld0 : Scy.World :=
  { connectRes := .ok (), execErr := fun _ => none, keyspaceRows := [],
    tableRows := fun _ => [], columnRows := fun _ _ => [],
    indexRows := fun _ _ => [], viewRows := fun _ => [] }

/-- Fresh ScyllaDB manager used by witnesses. -/
def scyMgr0 : Scy.DatabaseManager :=
  { db_config := scyCfg0, cluster := none, session := none }

/-- Witness for C3 at the concrete invalid first argument "bad name". -/
theorem ops_reject_invalid_names_before_connect_witness :
    reMatchesNamePat "bad name".toList = false ∧
    PG.list_tables pgWorld0 pgMgr0 "bad name" =
      ⟨.error (.invalidIdentifier ("Invalid schema name: " ++ "bad name")), pgMgr0, []⟩ :=
  ⟨by decide,
    (ops_reject_invalid_names_before_connect pgWorld0 scyWorld0 pgMgr0 scyMgr0
      "bad name" "x" (by decide)).1⟩

theorem PG.connect_res_ok_pg (w : PG.World) (m : PG.DatabaseManager)
    (hc : w.connectRes = .ok ()) : (PG.connect w m).res = .ok () := by
  rcases PG.connect_cases_pg w m with ⟨h, -⟩ | ⟨h, -⟩ | ⟨e, -, hw⟩
  · rw [h]
  · rw [h]
  · rw [hw] at hc
    exact absurd hc (by simp)

theorem Scy.connect_res_ok_scy (w : Scy.World) (m : Scy.DatabaseManager)
    (hc : w.connectRes = .ok ()) : (Scy.connect w m).res = .ok () := by
  rcases Scy.connect_cases_scy w m with ⟨h, -⟩ | ⟨h, -⟩ | ⟨e, -, hw⟩
  · rw [h]
  · rw [h]
  · rw [hw] at hc
    exact absurd hc (by simp)

/-- C4: on either backend, when the backend raises during query execution of
any of the ten introspection operations, the operation appends a log-error
event whose message names the operation and its target object and re-raises:
the overall result is the `backendQueryFailed` error carrying the backend
message, never a success with empty or partial rows.  Stated under valid
identifier arguments and a successful connection, which is the only way
execution is reached. -/
theorem ops_log_and_reraise_query_failures
    (w : PG.World) (ws : Scy.World)
    (m : PG.DatabaseManager) (ms : Scy.DatabaseManager) (s t : String)
    (hs : reMatchesNamePat s.toList = true) (ht : reMatchesNamePat t.toList = true)
    (hc : w.connectRes = .ok ()) (hcs : ws.connectRes = .ok ()) :
    (∀ e, w.execErr "list_schemas" = some e →
      PG.list_schemas w m =
        ⟨.error (.backendQueryFailed e), (PG.connect w m).mgr,
          (PG.connect w m).trace ++ [.executeQuery "list_schemas" [],
            .logError ("Error listing schemas: " ++ e)]⟩) ∧
    (∀ e, w.execErr "list_tables" = some e →
      PG.list_tables w m s =
        ⟨.error (.backendQueryFailed e), (PG.connect w m).mgr,
          (PG.connect w m).trace ++ [.executeQuery "list_tables" [s],
            .logError ("Error listing tables in schema \x27" ++ s ++ "\x27: " ++ e)]⟩) ∧
    (∀ e, w.execErr "describe_table" = some e →
      PG.describe_table w m s t =
        ⟨.error (.backendQueryFailed e), (PG.connect w m).mgr,
          (PG.connect w m).trace ++ [.executeQuery "describe_table" [s, t],
            .logError ("Error describing table \x27" ++ s ++ "." ++ t ++ "\x27: " ++ e)]⟩) ∧
    (∀ e, w.execErr "get_table_indexes" = some e →
      PG.get_table_indexes w m s t =
        ⟨.error (.backendQueryFailed e), (PG.connect w m).mgr,
          (PG.connect w m).trace ++ [.executeQuery "get_table_indexes" [s, t],
            .logError ("Error getting indexes for table \x27" ++ s ++ "." ++ t ++ "\x27: " ++ e)]⟩) ∧
    (∀ e, w.execErr "get_table_constraints" = some e →
      PG.get_table_constraints w m s t =
        ⟨.error (.backendQueryFailed e), (PG.connect w m).mgr,
          (PG.connect w m).trace ++ [.executeQuery "get_table_constraints" [s, t],
            .logError ("Error getting constraints for table \x27" ++ s ++ "." ++ t ++ "\x27: " ++ e)]⟩) ∧
    (∀ e, ws.execErr "list_keyspaces" = some e →
      Scy.list_keyspaces ws ms =
        ⟨.error (.backendQueryFailed e), (Scy.connect ws ms).mgr,
          (Scy.connect ws ms).trace ++ [.executeQuery "list_keyspaces" [],
            .logError ("Error listing keyspaces: " ++ e)]⟩) ∧
    (∀ e, ws.execErr "list_tables" = some e →
      Scy.list_tables ws ms s =
        ⟨.error (.backendQueryFailed e), (Scy.connect ws ms).mgr,
          (Scy.connect ws ms).trace ++ [.executeQuery "list_tables" [s],
            .logError ("Error listing tables in keyspace \x27" ++ s ++ "\x27: " ++ e)]⟩) ∧
    (∀ e, ws.execErr "describe_table" = some e →
      Scy.describe_table ws ms s t =
        ⟨.error (.backendQueryFailed e), (Scy.connect ws ms).mgr,
          (Scy.connect ws ms).trace ++ [.executeQuery "describe_table" [s, t],
            .logError ("Error describing table \x27" ++ s ++ "." ++ t ++ "\x27: " ++ e)]⟩) ∧
    (∀ e, ws.execErr "get_table_indexes" = some e →
      Scy.get_table_indexes ws ms s t =
        ⟨.error (.backendQueryFailed e), (Scy.connect ws ms).mgr,
          (Scy.connect ws ms).trace ++ [.executeQuery "get_table_indexes" [s, t],
            .logError ("Error getting indexes for table \x27" ++ s ++ "." ++ t ++ "\x27: " ++ e)]⟩) ∧
    (∀ e, ws.execErr "get_materialized_views" = some e →
      Scy.get_materialized_views ws ms s =
        ⟨.error (.backendQueryFailed e), (Scy.connect ws ms).mgr,
          (Scy.connect ws ms).trace ++ [.executeQuery "get_materialized_views" [s],
            .logError ("Error getting materialized views in keyspace \x27" ++ s ++ "\x27: " ++ e)]⟩) := by
  have hs2 : reMatchesNamePat s.data = true := hs
  have ht2 : reMatchesNamePat t.data = true := ht
  have hok := PG.connect_res_ok_pg w m hc
  have hoks := Scy.connect_res_ok_scy ws ms hcs
  refine ⟨?_, ?_, ?_, ?_, ?_, ?_, ?_, ?_, ?_, ?_⟩ <;>
    intro e he <;>
    simp [PG.list_schemas, PG.list_tables, PG.describe_table, PG.get_table_indexes,
      PG.get_table_constraints, Scy.list_keyspaces, Scy.list_tables, Scy.describe_table,
      Scy.get_table_indexes, Scy.get_materialized_views,
      PG.validate_name, Scy.validate_name, hs2, ht2, hok, hoks, he]

/-- Concrete oracle with a failing backend, used by the C4 witness. -/
def pgWorldFail : PG.World := { pgWorld0 with execErr := fun _ => some "boom" }

/-- Concrete ScyllaDB oracle with a failing backend, used by the C4 witness. -/
def scyWorldFail : Scy.World := { scyWorld0 with execErr := fun _ => some "boom" }

/-- Witness for C4 at a concrete failing execution. -/
theorem ops_log_and_reraise_query_failures_witness :
    pgWorldFail.execErr "list_schemas" = some "boom" ∧
    PG.list_schemas pgWorldFail pgMgr0 =
      ⟨.error (.backendQueryFailed "boom"), (PG.connect pgWorldFail pgMgr0).mgr,
        (PG.connect pgWorldFail pgMgr0).trace ++ [.executeQuery "list_schemas" [],
          .logError ("Error listing schemas: " ++ "boom")]⟩ :=
  ⟨rfl,
    (ops_log_and_reraise_query_failures pgWorldFail scyWorldFail pgMgr0 scyMgr0
      "s1" "t1" (by decide) (by decide) rfl rfl).1 "boom" rfl⟩

/-- C5: calling `close` on a never-connected manager succeeds, calling it
twice in succession on such a manager succeeds, and calling it twice on a
manager that connected successfully also succeeds — for both backends.  The
embedding of `close` raises a Python `AttributeError` wherever the source
would dereference `None`, so these statements prove the truthiness guards
make every such call safe. -/
theorem close_idempotent_and_safe
    (w : PG.World) (ws : Scy.World) (cfg : PG.Config) (cfgs : Scy.Config)
    (hc : w.connectRes = .ok ()) (hcs : ws.connectRes = .ok ()) :
    (∃ m1 m2, PG.close { db_config := cfg, conn := none } = .ok m1 ∧
      PG.close m1 = .ok m2) ∧
    (∃ m1 m2,
      PG.close (PG.connect w { db_config := cfg, conn := none }).mgr = .ok m1 ∧
      PG.close m1 = .ok m2 ∧
      (PG.connect w { db_config := cfg, conn := none }).res = .ok ()) ∧
    (∃ m1 m2,
      Scy.close { db_config := cfgs, cluster := none, session := none } = .ok m1 ∧
      Scy.close m1 = .ok m2) ∧
    (∃ m1 m2,
      Scy.close (Scy.connect ws { db_config := cfgs, cluster := none, session := none }).mgr =
        .ok m1 ∧
      Scy.close m1 = .ok m2 ∧
      (Scy.connect ws { db_config := cfgs, cluster := none, session := none }).res =
        .ok ()) := by
  have hcm : (PG.connect w { db_config := cfg, conn := none }).mgr =
      { db_config := cfg, conn := some { closed := false, readonly := true } } := by
    simp [PG.connect, hc]
  have hcms : (Scy.connect ws { db_config := cfgs, cluster := none, session := none }).mgr =
      { db_config := cfgs, cluster := some { wasShutdown := false },
        session := some { is_shutdown := false } } := by
    simp [Scy.connect, hcs]
  refine ⟨⟨_, _, rfl, rfl⟩, ?_, ⟨_, _, rfl, rfl⟩, ?_⟩
  · refine ⟨⟨cfg, some ⟨true, true⟩⟩, ⟨cfg, some ⟨true, true⟩⟩, ?_, ?_,
      PG.connect_res_ok_pg w _ hc⟩
    · rw [hcm]
      simp [PG.close, PG.connClosedAttr, PG.connCloseMethod]
    · simp [PG.close, PG.connClosedAttr, PG.connCloseMethod]
  · refine ⟨⟨cfgs, some ⟨true⟩, some ⟨true⟩⟩, ⟨cfgs, some ⟨true⟩, some ⟨true⟩⟩, ?_, ?_,
      Scy.connect_res_ok_scy ws _ hcs⟩
    · rw [hcms]
      simp [Scy.close, Scy.sessionShutdownAttr, Scy.sessionShutdownMethod,
        Scy.clusterShutdownMethod]
    · simp [Scy.close, Scy.sessionShutdownAttr, Scy.sessionShutdownMethod,
        Scy.clusterShutdownMethod]

/-- Witness for C5 with the concrete worlds and configurations. -/
theorem close_idempotent_and_safe_witness :
    pgWorld0.connectRes = .ok () ∧
    ∃ m1 m2, PG.close { db_config := pgCfg0, conn := none } = .ok m1 ∧
      PG.close m1 = .ok m2 :=
  ⟨rfl, (close_idempotent_and_safe pgWorld0 scyWorld0 pgCfg0 scyCfg0 rfl rfl).1⟩

theorem PG.connect_keeps_liveReadonly (w : PG.World) (m : PG.DatabaseManager)
    (hm : PG.liveReadonly m) : PG.liveReadonly (PG.connect w m).mgr := by
  rcases PG.connect_cases_pg w m with ⟨h, -⟩ | ⟨h, -⟩ | ⟨e, h, -⟩ <;> rw [h]
  · exact hm
  · intro c hc hcl
    simp at hc
    subst hc
    rfl
  · exact hm

theorem PG.connect_ok_session (w : PG.World) (m : PG.DatabaseManager)
    (hm : PG.liveReadonly m) (h : (PG.connect w m).res = .ok ()) :
    ∃ c, (PG.connect w m).mgr.conn = some c ∧ c.closed = false ∧ c.readonly = true := by
  rcases PG.connect_cases_pg w m with ⟨hc2, c0, hc0, hcl⟩ | ⟨hc2, hw⟩ | ⟨e, hc2, hw⟩
  · rw [hc2]
    exact ⟨c0, hc0, hcl, hm c0 hc0 hcl⟩
  · rw [hc2]
    exact ⟨_, rfl, rfl, rfl⟩
  · rw [hc2] at h
    simp at h

theorem PG.close_preserves_liveReadonly (m m2 : PG.DatabaseManager)
    (hm : PG.liveReadonly m) (h : PG.close m = .ok m2) : PG.liveReadonly m2 := by
  unfold PG.close at h
  cases hmc : m.conn with
  | none =>
    rw [hmc] at h
    simp at h
    subst h
    exact hm
  | some c =>
    rw [hmc] at h
    cases hcl : c.closed with
    | true =>
      simp [PG.connClosedAttr, hcl] at h
      subst h
      exact hm
    | false =>
      simp [PG.connClosedAttr, PG.connCloseMethod, hcl] at h
      subst h
      intro c2 hc2 hcl2
      simp at hc2
      rw [← hc2] at hcl2
      simp at hcl2

theorem PG.exec_event_connected_list_schemas (w : PG.World) (m : PG.DatabaseManager)
    (q : String) (p : List String)
    (hqp : Event.executeQuery q p ∈ (PG.list_schemas w m).trace) :
    (PG.connect w m).res = .ok () ∧
      (PG.list_schemas w m).mgr = (PG.connect w m).mgr := by
  rcases PG.connect_cases_pg w m with ⟨h, -⟩ | ⟨h, -⟩ | ⟨e, h, -⟩ <;>
    cases hq : w.execErr "list_schemas" <;>
    simp [PG.list_schemas, h, hq] at hqp ⊢

theorem PG.exec_event_connected_list_tables (w : PG.World) (m : PG.DatabaseManager)
    (s q : String) (p : List String)
    (hqp : Event.executeQuery q p ∈ (PG.list_tables w m s).trace) :
    (PG.connect w m).res = .ok () ∧
      (PG.list_tables w m s).mgr = (PG.connect w m).mgr := by
  by_cases hv : reMatchesNamePat s.data = true <;>
    rcases PG.connect_cases_pg w m with ⟨h, -⟩ | ⟨h, -⟩ | ⟨e, h, -⟩ <;>
    cases hq : w.execErr "list_tables" <;>
    simp [PG.list_tables, PG.validate_name, hv, h, hq] at hqp ⊢

theorem PG.exec_event_connected_describe_table (w : PG.World) (m : PG.DatabaseManager)
    (s t q : String) (p : List String)
    (hqp : Event.executeQuery q p ∈ (PG.describe_table w m s t).trace) :
    (PG.connect w m).res = .ok () ∧
      (PG.describe_table w m s t).mgr = (PG.connect w m).mgr := by
  by_cases hv : reMatchesNamePat s.data = true <;>
    by_cases hv2 : reMatchesNamePat t.data = true <;>
    rcases PG.connect_cases_pg w m with ⟨h, -⟩ | ⟨h, -⟩ | ⟨e, h, -⟩ <;>
    cases hq : w.execErr "describe_table" <;>
    simp [PG.describe_table, PG.validate_name, hv, hv2, h, hq] at hqp ⊢

theorem PG.exec_event_connected_get_table_indexes (w : PG.World) (m : PG.DatabaseManager)
    (s t q : String) (p : List String)
    (hqp : Event.executeQuery q p ∈ (PG.get_table_indexes w m s t).trace) :
    (PG.connect w m).res = .ok () ∧
      (PG.get_table_indexes w m s t).mgr = (PG.connect w m).mgr := by
  by_cases hv : reMatchesNamePat s.data = true <;>
    by_cases hv2 : reMatchesNamePat t.data = true <;>
    rcases PG.connect_cases_pg w m with ⟨h, -⟩ | ⟨h, -⟩ | ⟨e, h, -⟩ <;>
    cases hq : w.execErr "get_table_indexes" <;>
    simp [PG.get_table_indexes, PG.validate_name, hv, hv2, h, hq] at hqp ⊢

theorem PG.exec_event_connected_get_table_constraints (w : PG.World) (m : PG.DatabaseManager)
    (s t q : String) (p : List String)
    (hqp : Event.executeQuery q p ∈ (PG.get_table_constraints w m s t).trace) :
    (PG.connect w m).res = .ok () ∧
      (PG.get_table_constraints w m s t).mgr = (PG.connect w m).mgr := by
  by_cases hv : reMatchesNamePat s.data = true <;>
    by_cases hv2 : reMatchesNamePat t.data = true <;>
    rcases PG.connect_cases_pg w m with ⟨h, -⟩ | ⟨h, -⟩ | ⟨e, h, -⟩ <;>
    cases hq : w.execErr "get_table_constraints" <;>
    simp [PG.get_table_constraints, PG.validate_name, hv, hv2, h, hq] at hqp ⊢

/-- C6: read-only invariant of the relational backend.  A fresh manager
holds no session; `connect` preserves the invariant that every live session
was marked read-only by `set_session(readonly=True)` and, when it returns
successfully, the manager holds a live read-only session; `close` preserves
the invariant; and whenever any of the five operations actually executes a
query (an `executeQuery` event is in its trace), the manager on which that
query ran holds a live read-only session.  Together these show every
session established by `connect` is server-side read-only before any query
runs on it, across lazy reconnection after close or invalidation. -/
theorem pg_live_sessions_readonly (w : PG.World) (m : PG.DatabaseManager)
    (cfg : PG.Config) (s t : String) (hm : PG.liveReadonly m) :
    PG.liveReadonly { db_config := cfg, conn := none } ∧
    PG.liveReadonly (PG.connect w m).mgr ∧
    ((PG.connect w m).res = .ok () →
      ∃ c, (PG.connect w m).mgr.conn = some c ∧ c.closed = false ∧ c.readonly = true) ∧
    (∀ m2, PG.close m = .ok m2 → PG.liveReadonly m2) ∧
    (∀ q p, Event.executeQuery q p ∈ (PG.list_schemas w m).trace →
      ∃ c, (PG.list_schemas w m).mgr.conn = some c ∧
        c.closed = false ∧ c.readonly = true) ∧
    (∀ q p, Event.executeQuery q p ∈ (PG.list_tables w m s).trace →
      ∃ c, (PG.list_tables w m s).mgr.conn = some c ∧
        c.closed = false ∧ c.readonly = true) ∧
    (∀ q p, Event.executeQuery q p ∈ (PG.describe_table w m s t).trace →
      ∃ c, (PG.describe_table w m s t).mgr.conn = some c ∧
        c.closed = false ∧ c.readonly = true) ∧
    (∀ q p, Event.executeQuery q p ∈ (PG.get_table_indexes w m s t).trace →
      ∃ c, (PG.get_table_indexes w m s t).mgr.conn = some c ∧
        c.closed = false ∧ c.readonly = true) ∧
    (∀ q p, Event.executeQuery q p ∈ (PG.get_table_constraints w m s t).trace →
      ∃ c, (PG.get_table_constraints w m s t).mgr.conn = some c ∧
        c.closed = false ∧ c.readonly = true) := by
  refine ⟨?_, PG.connect_keeps_liveReadonly w m hm, PG.connect_ok_session w m hm,
    fun m2 h => PG.close_preserves_liveReadonly m m2 hm h, ?_, ?_, ?_, ?_, ?_⟩
  · intro c hc hcl
    simp at hc
  · intro q p hqp
    obtain ⟨hok, hmgr⟩ := PG.exec_event_connected_list_schemas w m q p hqp
    rw [hmgr]
    exact PG.connect_ok_session w m hm hok
  · intro q p hqp
    obtain ⟨hok, hmgr⟩ := PG.exec_event_connected_list_tables w m s q p hqp
    rw [hmgr]
    exact PG.connect_ok_session w m hm hok
  · intro q p hqp
    obtain ⟨hok, hmgr⟩ := PG.exec_event_connected_describe_table w m s t q p hqp
    rw [hmgr]
    exact PG.connect_ok_session w m hm hok
  · intro q p hqp
    obtain ⟨hok, hmgr⟩ := PG.exec_event_connected_get_table_indexes w m s t q p hqp
    rw [hmgr]
    exact PG.connect_ok_session w m hm hok
  · intro q p hqp
    obtain ⟨hok, hmgr⟩ := PG.exec_event_connected_get_table_constraints w m s t q p hqp
    rw [hmgr]
    exact PG.connect_ok_session w m hm hok

/-- Witness for C6 at a fresh manager (which trivially satisfies the
invariant) and the always-succeeding oracle. -/
theorem pg_live_sessions_readonly_witness :
    PG.liveReadonly pgMgr0 ∧ PG.liveReadonly (PG.connect pgWorld0 pgMgr0).mgr :=
  ⟨fun c hc _ => absurd hc (by simp [pgMgr0]),
   (pg_live_sessions_readonly pgWorld0 pgMgr0 pgCfg0 "s1" "t1"
     (fun c hc _ => absurd hc (by simp [pgMgr0]))).2.1⟩

/-- C7: for any schema catalog, `list_schemas` (with a working connection
and backend) returns exactly the names outside the fixed exclusion set
(`information_schema`, `pg_catalog`) and without the prefixes `pg_toast` /
`pg_temp`, sorted ascending. -/
theorem list_schemas_excludes_and_sorts (w : PG.World) (m : PG.DatabaseManager)
    (hc : w.connectRes = .ok ()) (he : w.execErr "list_schemas" = none) :
    ∃ out, (PG.list_schemas w m).res = .ok out ∧
      (∀ s, s ∈ out ↔
        (s ∈ w.schemata ∧ s ≠ "information_schema" ∧ s ≠ "pg_catalog" ∧
          s.startsWith "pg_toast" = false ∧ s.startsWith "pg_temp" = false)) ∧
      out.Sorted (· ≤ ·) := by
  refine ⟨PG.schemataQueryRows w.schemata, ?_, ?_, ?_⟩
  · have hok := PG.connect_res_ok_pg w m hc
    simp [PG.list_schemas, hok, he]
  · intro s
    unfold PG.schemataQueryRows
    rw [List.mem_insertionSort, List.mem_filter]
    simp [PG.schemaExcluded, and_assoc]
  · exact List.sorted_insertionSort _ _

/-- Witness for C7 with the concrete catalog of `pgWorld0`. -/
theorem list_schemas_excludes_and_sorts_witness :
    pgWorld0.connectRes = .ok () ∧
    ∃ out, (PG.list_schemas pgWorld0 pgMgr0).res = .ok out ∧
      (∀ s, s ∈ out ↔
        (s ∈ pgWorld0.schemata ∧ s ≠ "information_schema" ∧ s ≠ "pg_catalog" ∧
          s.startsWith "pg_toast" = false ∧ s.startsWith "pg_temp" = false)) ∧
      out.Sorted (· ≤ ·) :=
  ⟨rfl, list_schemas_excludes_and_sorts pgWorld0 pgMgr0 rfl rfl⟩

/-- C8: for any keyspace catalog, `list_keyspaces` (with a working
connection and backend) returns exactly the names outside the fixed
five-element system exclusion set, sorted ascending by the Python-side
`sorted`. -/
theorem list_keyspaces_excludes_and_sorts (ws : Scy.World) (ms : Scy.DatabaseManager)
    (hc : ws.connectRes = .ok ()) (he : ws.execErr "list_keyspaces" = none) :
    ∃ out, (Scy.list_keyspaces ws ms).res = .ok out ∧
      (∀ k, k ∈ out ↔
        (k ∈ ws.keyspaceRows ∧ k ≠ "system" ∧ k ≠ "system_schema" ∧
          k ≠ "system_auth" ∧ k ≠ "system_distributed" ∧ k ≠ "system_traces")) ∧
      out.Sorted (· ≤ ·) := by
  refine ⟨List.insertionSort (· ≤ ·)
      (ws.keyspaceRows.filter (fun k => !Scy.keyspaceExcluded k)), ?_, ?_, ?_⟩
  · have hok := Scy.connect_res_ok_scy ws ms hc
    simp [Scy.list_keyspaces, hok, he]
  · intro k
    rw [List.mem_insertionSort, List.mem_filter]
    simp [Scy.keyspaceExcluded, and_assoc]
  · exact List.sorted_insertionSort _ _

/-- Concrete keyspace catalog containing system and user keyspaces, used by
the C8 witness. -/
def scyWorldK : Scy.World := { scyWorld0 with keyspaceRows := ["system", "app"] }

/-- Witness for C8 with the concrete catalog of `scyWorldK`. -/
theorem list_keyspaces_excludes_and_sorts_witness :
    scyWorldK.connectRes = .ok () ∧
    ∃ out, (Scy.list_keyspaces scyWorldK scyMgr0).res = .ok out ∧
      (∀ k, k ∈ out ↔
        (k ∈ scyWorldK.keyspaceRows ∧ k ≠ "system" ∧ k ≠ "system_schema" ∧
          k ≠ "system_auth" ∧ k ≠ "system_distributed" ∧ k ≠ "system_traces")) ∧
      out.Sorted (· ≤ ·) :=
  ⟨rfl, list_keyspaces_excludes_and_sorts scyWorldK scyMgr0 rfl rfl⟩

/-- C9: if any of the POSTGRES_USER, POSTGRES_PASSWORD, POSTGRES_DATABASE
environment variables is absent, constructing the request-scoped manager
through `get_db` fails with the descriptive credentials `ValueError`; no
`DatabaseManager` is produced, so no connection attempt is possible. -/
theorem get_db_missing_credentials (env : String → Option String)
    (h : env "POSTGRES_USER" = none ∨ env "POSTGRES_PASSWORD" = none ∨
      env "POSTGRES_DATABASE" = none) :
    PG.get_db env = .error (.missingConfiguration
      "Database credentials (POSTGRES_USER, POSTGRES_PASSWORD, POSTGRES_DATABASE) are required") := by
  unfold PG.get_db PG.get_db_config
  rcases h with h | h | h <;> simp [h]

/-- Witness for C9 with an empty environment. -/
theorem get_db_missing_credentials_witness :
    ((fun _ => none : String → Option String) "POSTGRES_USER" = none) ∧
    PG.get_db (fun _ => none) = .error (.missingConfiguration
      "Database credentials (POSTGRES_USER, POSTGRES_PASSWORD, POSTGRES_DATABASE) are required") :=
  ⟨rfl, get_db_missing_credentials (fun _ => none) (Or.inl rfl)⟩

theorem Scy.kindRank_le_three (k : String) : Scy.kindRank k ≤ 3 := by
  unfold Scy.kindRank
  split_ifs <;> omega

/-- Oracle whose describe_table rows contain, in the same (regular) group, a
column with a missing position and a column with position 1000. -/
def scyWorldBigPos : Scy.World :=
  { scyWorld0 with columnRows := fun _ _ =>
      [⟨"a", "int", "regular", none⟩, ⟨"b", "int", "regular", some 1000⟩] }

/-- C2 counterexample: with two columns of the same (regular) group, one
with a missing position and one with position 1000, the missing-position
column does not sort last within its group: the code replaces None by the
sentinel 999, and 999 sorts before 1000, so the missing-position column
comes out first.  This refutes the universally quantified clause "a column
whose position is missing (None) sorts last within its group". -/
theorem describe_table_missing_position_counterexample :
    (Scy.describe_table scyWorldBigPos scyMgr0 "ks" "t").res =
      .ok [⟨"a", "int", "regular", none⟩, ⟨"b", "int", "regular", some 1000⟩] := by
  rfl

/-- Oracle carrying the four-row example from the claim (in the order
regular(1), partition_key(0), clustering(0), static(2)). -/
def scyWorldClaimExample : Scy.World :=
  { scyWorld0 with columnRows := fun _ _ =>
      [⟨"r", "int", "regular", some 1⟩,
       ⟨"p", "int", "partition_key", some 0⟩,
       ⟨"c", "int", "clustering", some 0⟩,
       ⟨"s", "int", "static", some 2⟩] }

/-- C2 (amended): `describe_table` on the wide-column backend returns a
permutation of the rows sorted by the key (kind rank in the fixed order
partition_key < clustering < static < regular, then position with None
replaced by the sentinel 999).  Hence the output is grouped by kind in that
fixed order and ordered by position within each group; a missing position
sorts last within its group whenever every present position is below 999
(not in general, see the counterexample); and the concrete four-row example
of the claim normalizes to partition_key(0), clustering(0), static(2),
regular(1). -/
theorem describe_table_sort_characterization
    (w : Scy.World) (ms : Scy.DatabaseManager) (ks t : String)
    (hks : reMatchesNamePat ks.toList = true) (ht : reMatchesNamePat t.toList = true)
    (hc : w.connectRes = .ok ()) (he : w.execErr "describe_table" = none) :
    (∃ out, (Scy.describe_table w ms ks t).res = .ok out ∧
      out.Perm (w.columnRows ks t) ∧
      out.Pairwise Scy.colR ∧
      ((∀ c ∈ w.columnRows ks t, ∀ p, c.position = some p → p < 999) →
        ∀ c d, [c, d].Sublist out → Scy.kindRank c.kind = Scy.kindRank d.kind →
          c.position = none → d.position = none)) ∧
    (Scy.describe_table scyWorldClaimExample scyMgr0 "ks" "t").res =
      .ok [⟨"p", "int", "partition_key", some 0⟩,
           ⟨"c", "int", "clustering", some 0⟩,
           ⟨"s", "int", "static", some 2⟩,
           ⟨"r", "int", "regular", some 1⟩] := by
  constructor
  · have hks2 : reMatchesNamePat ks.data = true := hks
    have ht2 : reMatchesNamePat t.data = true := ht
    have hok := Scy.connect_res_ok_scy w ms hc
    refine ⟨List.insertionSort Scy.colR (w.columnRows ks t), ?_, ?_, ?_, ?_⟩
    · simp [Scy.describe_table, Scy.validate_name, hks2, ht2, hok, he]
    · exact List.perm_insertionSort _ _
    · exact List.sorted_insertionSort _ _
    · intro hbound c d hsub hrank hcpos
      have hpw := List.Pairwise.sublist hsub (List.sorted_insertionSort Scy.colR _)
      have hcd : Scy.colR c d := by
        rcases List.pairwise_cons.mp hpw with ⟨h1, -⟩
        exact h1 d (by simp)
      cases hdp : d.position with
      | none => rfl
      | some p =>
        exfalso
        have hd : d ∈ w.columnRows ks t := by
          have hdo : d ∈ List.insertionSort Scy.colR (w.columnRows ks t) :=
            hsub.subset (by simp)
          exact (List.mem_insertionSort _).mp hdo
        have hple := hbound d hd p hdp
        unfold Scy.colR Scy.colKey Scy.posOr999 at hcd
        rw [hrank, hcpos, hdp] at hcd
        simp at hcd
        omega
  · rfl

/-- Witness for C2 at the concrete four-row example of the claim. -/
theorem describe_table_sort_characterization_witness :
    reMatchesNamePat "ks".toList = true ∧
    (Scy.describe_table scyWorldClaimExample scyMgr0 "ks" "t").res =
      .ok [⟨"p", "int", "partition_key", some 0⟩,
           ⟨"c", "int", "clustering", some 0⟩,
           ⟨"s", "int", "static", some 2⟩,
           ⟨"r", "int", "regular", some 1⟩] :=
  ⟨by decide,
   (describe_table_sort_characterization scyWorldClaimExample scyMgr0 "ks" "t"
      (by decide) (by decide) rfl rfl).2⟩

/-- Oracle whose describe_table rows include a column with the unrecognized
kind "weird", used by the C10 witness. -/
def scyWorldUnknownKind : Scy.World :=
  { scyWorld0 with columnRows := fun _ _ =>
      [⟨"u", "int", "weird", some 0⟩, ⟨"r", "int", "regular", some 1⟩,
       ⟨"p", "int", "partition_key", some 0⟩] }

/-- C10: every kind outside partition_key / clustering / static receives
rank 3, the same rank as regular columns, so unrecognized kinds are placed
in the last sort group together with regular columns; `describe_table`
succeeds on such rows (with a working connection and backend it never fails
because of an unrecognized kind); everything following a rank-3 column in
the output is rank-3 (the group is final), and within that group columns
are ordered by position (with the 999 sentinel for missing positions). -/
theorem describe_table_unrecognized_kind
    (w : Scy.World) (ms : Scy.DatabaseManager) (ks t : String)
    (hks : reMatchesNamePat ks.toList = true) (ht : reMatchesNamePat t.toList = true)
    (hc : w.connectRes = .ok ()) (he : w.execErr "describe_table" = none) :
    (∀ k : String, k ≠ "partition_key" → k ≠ "clustering" → k ≠ "static" →
      Scy.kindRank k = 3 ∧ Scy.kindRank k = Scy.kindRank "regular") ∧
    ∃ out, (Scy.describe_table w ms ks t).res = .ok out ∧
      out.Perm (w.columnRows ks t) ∧
      (∀ c d, [c, d].Sublist out → Scy.kindRank c.kind = 3 → Scy.kindRank d.kind = 3) ∧
      (∀ c d, [c, d].Sublist out → Scy.kindRank c.kind = 3 → Scy.kindRank d.kind = 3 →
        Scy.posOr999 c.position ≤ Scy.posOr999 d.position) := by
  constructor
  · intro k h1 h2 h3
    exact ⟨by simp [Scy.kindRank, h1, h2, h3], by simp [Scy.kindRank, h1, h2, h3]⟩
  · have hks2 : reMatchesNamePat ks.data = true := hks
    have ht2 : reMatchesNamePat t.data = true := ht
    have hok := Scy.connect_res_ok_scy w ms hc
    refine ⟨List.insertionSort Scy.colR (w.columnRows ks t), ?_, ?_, ?_, ?_⟩
    · simp [Scy.describe_table, Scy.validate_name, hks2, ht2, hok, he]
    · exact List.perm_insertionSort _ _
    · intro c d hsub hc3
      have hpw := List.Pairwise.sublist hsub (List.sorted_insertionSort Scy.colR _)
      have hcd : Scy.colR c d := by
        rcases List.pairwise_cons.mp hpw with ⟨h1, -⟩
        exact h1 d (by simp)
      have hdle := Scy.kindRank_le_three d.kind
      unfold Scy.colR Scy.colKey at hcd
      rcases hcd with hlt | ⟨heq, -⟩
      · omega
      · omega
    · intro c d hsub hc3 hd3
      have hpw := List.Pairwise.sublist hsub (List.sorted_insertionSort Scy.colR _)
      have hcd : Scy.colR c d := by
        rcases List.pairwise_cons.mp hpw with ⟨h1, -⟩
        exact h1 d (by simp)
      unfold Scy.colR Scy.colKey at hcd
      rcases hcd with hlt | ⟨-, hle⟩
      · omega
      · exact hle

/-- Witness for C10 at the concrete unrecognized kind "weird". -/
theorem describe_table_unrecognized_kind_witness :
    reMatchesNamePat "ks".toList = true ∧ Scy.kindRank "weird" = 3 :=
  ⟨by decide,
   ((describe_table_unrecognized_kind scyWorldUnknownKind scyMgr0 "ks" "t"
      (by decide) (by decide) rfl rfl).1 "weird" (by decide) (by decide) (by decide)).1⟩
